import Mathlib

/-!
Verification of the eyeBOLD curation pipeline against its specification.

Python strings are modelled as `List Char`, Python unbounded nonnegative
integers as `Nat`, Python floats produced by the geo scorer as `Rat`
(the scorer only ever adds integers and one exact quotient), and fallible
Python code as `Except PyExc`.
-/

namespace EyeBold

/-! ## Status bitvector (src/sqlite/Bitvector.py, class BitIndex) -/

def SELECTED : Nat := 0
def NAME_CHECKED : Nat := 1
def DUPLICATE : Nat := 2
def FAILED_LENGTH : Nat := 3
def HYBRID : Nat := 4
def INCL_KINGDOM : Nat := 5
def INCL_PHYLUM : Nat := 6
def INCL_CLASS : Nat := 7
def INCL_ORDER : Nat := 8
def INCL_FAMILY : Nat := 9
def INCL_SUBFAMILY : Nat := 10
def INCL_TRIBE : Nat := 11
def INCL_GENUS : Nat := 12
def INCL_SPECIES : Nat := 13
def INCL_SUBSPECIES : Nat := 14
def BAD_CLASSIFICATION : Nat := 15
def NAME_FAILED : Nat := 16
def LOC_CHECKED : Nat := 17
def LOC_PASSED : Nat := 18
def LOC_EMPTY : Nat := 19

/-- Bitvector.py, `ChecksManager.generate_mask`: OR of `1 << b` over the list. -/
def generateMask (bit_indices : List Nat) : Nat :=
  bit_indices.foldl (fun mask b => mask ||| (1 <<< b)) 0

/-- Bitvector.py lines 42-60, `BitIndex.get_update_clear_mask`:
keeps only the three location bits. -/
def getUpdateClearMask : Nat :=
  let mask := 0
  let mask := mask ||| (1 <<< LOC_CHECKED)
  let mask := mask ||| (1 <<< LOC_EMPTY)
  let mask := mask ||| (1 <<< LOC_PASSED)
  mask

/-- Bitvector.py lines 62-89, `BitIndex.get_golden`: returns
`(read_mask, golden_mask)`, built exactly as in the source (including the
`0 <<` terms that contribute nothing). -/
def getGolden : Nat × Nat :=
  let golden_mask := 0
  let golden_mask := golden_mask ||| (1 <<< NAME_CHECKED)
  let golden_mask := golden_mask ||| (0 <<< NAME_FAILED)
  let golden_mask := golden_mask ||| (0 <<< DUPLICATE)
  let golden_mask := golden_mask ||| (0 <<< FAILED_LENGTH)
  let golden_mask := golden_mask ||| (0 <<< BAD_CLASSIFICATION)
  let read_mask := 0
  let read_mask := read_mask ||| (1 <<< NAME_CHECKED)
  let read_mask := read_mask ||| (1 <<< NAME_FAILED)
  let read_mask := read_mask ||| (1 <<< DUPLICATE)
  let read_mask := read_mask ||| (1 <<< FAILED_LENGTH)
  let read_mask := read_mask ||| (1 <<< BAD_CLASSIFICATION)
  (read_mask, golden_mask)

/-- eyebold_database.py lines 430-436 (`curate`) and 237-244 (`update`): the
selection query marks a row as a SELECTED candidate iff
`(checks & read_mask) = golden_value`. -/
def isGoldenChecks (checks : Nat) : Prop :=
  checks &&& getGolden.1 = getGolden.2

instance (checks : Nat) : Decidable (isGoldenChecks checks) := by
  unfold isGoldenChecks; infer_instance

lemma getGolden_eval : getGolden = (98318, 2) := by decide

/-- Fixed-bit description of the constant 98318 = read mask. -/
lemma testBit_readMask (k : Nat) :
    Nat.testBit 98318 k =
      decide (k = 1 ∨ k = 2 ∨ k = 3 ∨ k = 15 ∨ k = 16) := by
  rcases Nat.lt_or_ge k 17 with h | h
  · interval_cases k <;> decide
  · rw [Nat.testBit_eq_false_of_lt]
    · symm
      simp only [decide_eq_false_iff_not]
      omega
    · calc (98318 : Nat) < 2 ^ 17 := by norm_num
        _ ≤ 2 ^ k := Nat.pow_le_pow_right (by norm_num) h

/-- Fixed-bit description of the constant 2 = golden value. -/
lemma testBit_goldenVal (k : Nat) :
    Nat.testBit 2 k = decide (k = 1) := by
  rcases Nat.lt_or_ge k 2 with h | h
  · interval_cases k <;> decide
  · rw [Nat.testBit_eq_false_of_lt]
    · symm
      simp only [decide_eq_false_iff_not]
      omega
    · calc (2 : Nat) < 2 ^ 2 := by norm_num
        _ ≤ 2 ^ k := Nat.pow_le_pow_right (by norm_num) h

/-- Fixed-bit description of the constant 917504 = update-clear mask. -/
lemma testBit_updateClearMask (k : Nat) :
    Nat.testBit 917504 k = decide (k = 17 ∨ k = 18 ∨ k = 19) := by
  rcases Nat.lt_or_ge k 20 with h | h
  · interval_cases k <;> decide
  · rw [Nat.testBit_eq_false_of_lt]
    · symm
      simp only [decide_eq_false_iff_not]
      omega
    · calc (917504 : Nat) < 2 ^ 20 := by norm_num
        _ ≤ 2 ^ k := Nat.pow_le_pow_right (by norm_num) h

/-- Shared helper: the masked equality of `get_golden` is exactly the
bit-level golden predicate. -/
lemma isGoldenChecks_iff (checks : Nat) :
    isGoldenChecks checks ↔
      (Nat.testBit checks NAME_CHECKED = true ∧
       Nat.testBit checks NAME_FAILED = false ∧
       Nat.testBit checks DUPLICATE = false ∧
       Nat.testBit checks FAILED_LENGTH = false ∧
       Nat.testBit checks BAD_CLASSIFICATION = false) := by
  unfold isGoldenChecks
  rw [getGolden_eval]
  simp only [NAME_CHECKED, NAME_FAILED, DUPLICATE, FAILED_LENGTH,
    BAD_CLASSIFICATION]
  constructor
  · intro h
    have hb1 := congrArg (fun n => Nat.testBit n 1) h
    have hb2 := congrArg (fun n => Nat.testBit n 2) h
    have hb3 := congrArg (fun n => Nat.testBit n 3) h
    have hb15 := congrArg (fun n => Nat.testBit n 15) h
    have hb16 := congrArg (fun n => Nat.testBit n 16) h
    simp only [Nat.testBit_land, testBit_readMask, testBit_goldenVal,
      decide_eq_true_eq, Bool.and_true, Bool.and_false,
      decide_eq_false_iff_not] at hb1 hb2 hb3 hb15 hb16
    simp_all
  · rintro ⟨h1, h16, h2, h3, h15⟩
    apply Nat.eq_of_testBit_eq
    intro k
    rw [Nat.testBit_land, testBit_readMask, testBit_goldenVal]
    by_cases hk1 : k = 1
    · subst hk1; simp [h1]
    · by_cases hk2 : k = 2
      · subst hk2; simp [h2]
      · by_cases hk3 : k = 3
        · subst hk3; simp [h3]
        · by_cases hk15 : k = 15
          · subst hk15; simp [h15]
          · by_cases hk16 : k = 16
            · subst hk16; simp [h16]
            · simp [hk1, hk2, hk3, hk15, hk16]

/-- C1: Selection uses a single masked equality on the status bitvector:
for every integer checks value, the record is a SELECTED candidate iff
`(checks AND read_mask) = golden_value`, where `read_mask` is the OR of the
bits NAME_CHECKED, NAME_FAILED, DUPLICATE, FAILED_LENGTH and
BAD_CLASSIFICATION, and `golden_value` has only NAME_CHECKED set;
equivalently, iff NAME_CHECKED is set and none of NAME_FAILED, DUPLICATE,
FAILED_LENGTH, BAD_CLASSIFICATION is set. -/
theorem golden_selection_masked_equality :
    (getGolden.1 =
      (1 <<< NAME_CHECKED) ||| (1 <<< NAME_FAILED) ||| (1 <<< DUPLICATE) |||
        (1 <<< FAILED_LENGTH) ||| (1 <<< BAD_CLASSIFICATION)) ∧
    (getGolden.2 = 1 <<< NAME_CHECKED) ∧
    ∀ checks : Nat,
      isGoldenChecks checks ↔
        (Nat.testBit checks NAME_CHECKED = true ∧
         Nat.testBit checks NAME_FAILED = false ∧
         Nat.testBit checks DUPLICATE = false ∧
         Nat.testBit checks FAILED_LENGTH = false ∧
         Nat.testBit checks BAD_CLASSIFICATION = false) :=
  ⟨by decide, by decide, isGoldenChecks_iff⟩

lemma testBit_one_shift (n k : Nat) :
    Nat.testBit (1 <<< n) k = decide (k = n) := by
  rw [Nat.shiftLeft_eq, one_mul, Nat.testBit_two_pow]
  simp [eq_comm]

/-! ## Classifier bridge write and update-clear mask
(src/common/eyebold_database.py, `_update_raxtax` and `update`) -/

/-- eyebold_database.py line 473 (`_update_raxtax`): for every specimen id in
`bad_entries` the statement executes
`UPDATE specimen SET checks = (checks & ~1) | (1 << 15) WHERE specimenid=?`.
Python `checks & ~1` on a nonnegative int clears bit 0, which on `Nat` is
`Nat.ldiff checks 1`. -/
def updateRaxtaxChecks (checks : Nat) : Nat :=
  (Nat.ldiff checks 1) ||| (1 <<< BAD_CLASSIFICATION)

/-- eyebold_database.py lines 466-478: the whole marking step maps each
record either through `updateRaxtaxChecks` (it is in `bad_entries`) or
leaves it unchanged. -/
def raxtaxMarkStep (marked : Bool) (checks : Nat) : Nat :=
  if marked then updateRaxtaxChecks checks else checks

/-- C3 counterexample: the raxtax misclassification write is a curation-pass
write to the checks bitvector that clears a previously set bit. On a record
whose checks value is 1 (SELECTED set) it produces 32768, with SELECTED no
longer set, even though it is not the ingest-update clear statement. -/
theorem curation_write_clears_selected_counterexample :
    Nat.testBit 1 SELECTED = true ∧
    updateRaxtaxChecks 1 = 32768 ∧
    Nat.testBit (updateRaxtaxChecks 1) SELECTED = false := by
  refine ⟨by decide, ?_, ?_⟩
  · apply Nat.eq_of_testBit_eq
    intro k
    have h32768 : (32768 : Nat) = 1 <<< 15 := by decide
    rw [h32768]
    simp only [updateRaxtaxChecks, BAD_CLASSIFICATION, Nat.testBit_lor,
      Nat.testBit_ldiff, testBit_one_shift]
    simp
  · simp only [updateRaxtaxChecks, SELECTED, BAD_CLASSIFICATION,
      Nat.testBit_lor, Nat.testBit_ldiff, testBit_one_shift]
    decide

/-- Shared helper: bit-level description of the raxtax misclassification
write. -/
lemma updateRaxtaxChecks_testBit (checks k : Nat) :
    Nat.testBit (updateRaxtaxChecks checks) k =
      (decide (k = BAD_CLASSIFICATION) ||
        (Nat.testBit checks k && !decide (k = SELECTED))) := by
  simp only [updateRaxtaxChecks, BAD_CLASSIFICATION, SELECTED,
    Nat.testBit_lor, Nat.testBit_ldiff, testBit_one_shift,
    testBit_goldenVal]
  have h1 : Nat.testBit 1 k = decide (k = 0) := by
    have := testBit_one_shift 0 k
    simpa using this
  rw [h1]
  by_cases h15 : k = 15
  · subst h15; simp
  · by_cases h0 : k = 0
    · subst h0; simp
    · simp [h0, h15]

/-- Shared helper: bit-level description of the ingest-update clear
statement. -/
lemma updateClearMask_testBit (checks k : Nat) :
    Nat.testBit (checks &&& getUpdateClearMask) k =
      (Nat.testBit checks k &&
        decide (k = LOC_CHECKED ∨ k = LOC_PASSED ∨ k = LOC_EMPTY)) := by
  have hclear : getUpdateClearMask = 917504 := by decide
  rw [hclear, Nat.testBit_land, testBit_updateClearMask]
  simp only [LOC_CHECKED, LOC_PASSED, LOC_EMPTY]

/-- Every statement of the pipeline that writes the specimen checks
column, one constructor per statement in the source. The OR statements
carry the mask or flag they OR in as a parameter. `ChecksManager.clear_bit`
(Bitvector.py lines 248-261) is defined but has no caller, so no pass
issues it. -/
inductive ChecksWrite where
  | harmonizerOr (mask : Nat)
  | purgeTrivialOr (mask : Nat)
  | purgePoolOr (mask : Nat)
  | purgeHardOr (mask : Nat)
  | hybridOr
  | goldenSelectOr
  | locEmptyOr
  | locPassedOr (flag : Nat)
  | locCheckedOr
  | managerSetBit (b : Nat)
  | updateClear
  | raxtaxMark

/-- The checks update each write statement performs on one record:
harmonizerOr is `checks = checks | ?` (parser.py 63-64); the three purge
writes are `checks = checks | ?` (sanitizer.py 235, 290, 451); hybridOr is
`checks | (1 << HYBRID)` (sanitizer.py 505); goldenSelectOr is
`checks | (1 << SELECTED)` (eyebold_database.py 240 and 433); the tracker
writes are `checks | (1 << LOC_EMPTY)` (tracker.py 443),
`checks | (? << LOC_PASSED)` (tracker.py 457) and
`checks | (1 << LOC_CHECKED)` (tracker.py 116); managerSetBit is
`checks | (1 << bit)` (Bitvector.py 243); updateClear is
`checks & update_clear_mask` (eyebold_database.py 195-197); raxtaxMark is
`(checks & ~1) | (1 << BAD_CLASSIFICATION)` (eyebold_database.py 473). -/
def applyChecksWrite : ChecksWrite → Nat → Nat
  | .harmonizerOr mask, c => c ||| mask
  | .purgeTrivialOr mask, c => c ||| mask
  | .purgePoolOr mask, c => c ||| mask
  | .purgeHardOr mask, c => c ||| mask
  | .hybridOr, c => c ||| (1 <<< HYBRID)
  | .goldenSelectOr, c => c ||| (1 <<< SELECTED)
  | .locEmptyOr, c => c ||| (1 <<< LOC_EMPTY)
  | .locPassedOr flag, c => c ||| (flag <<< LOC_PASSED)
  | .locCheckedOr, c => c ||| (1 <<< LOC_CHECKED)
  | .managerSetBit b, c => c ||| (1 <<< b)
  | .updateClear, c => c &&& getUpdateClearMask
  | .raxtaxMark, c => updateRaxtaxChecks c

/-- The two statements that are not plain ORs. -/
def isClearingWrite : ChecksWrite → Bool
  | .updateClear => true
  | .raxtaxMark => true
  | _ => false

/-- C3 amended: of all the statements that write the checks bitvector,
every one except exactly two only ORs bits in — a bit set before the write
is still set after it, for any mask or flag value. The two exceptions are
the ingest-update clear statement `checks & update_clear_mask`, which
keeps a bit iff it is one of LOC_CHECKED, LOC_PASSED, LOC_EMPTY, and the
raxtax misclassification write, which sets BAD_CLASSIFICATION, clears
exactly SELECTED, and leaves every other bit as it was. -/
theorem checks_write_clear_behavior :
    (∀ (w : ChecksWrite) (checks k : Nat), isClearingWrite w = false →
      Nat.testBit checks k = true →
      Nat.testBit (applyChecksWrite w checks) k = true) ∧
    (∀ (checks k : Nat),
      (Nat.testBit (updateRaxtaxChecks checks) k =
        (decide (k = BAD_CLASSIFICATION) ||
          (Nat.testBit checks k && !decide (k = SELECTED)))) ∧
      (Nat.testBit (checks &&& getUpdateClearMask) k =
        (Nat.testBit checks k &&
          decide (k = LOC_CHECKED ∨ k = LOC_PASSED ∨ k = LOC_EMPTY)))) ∧
    (∀ checks : Nat,
      applyChecksWrite ChecksWrite.updateClear checks =
        checks &&& getUpdateClearMask ∧
      applyChecksWrite ChecksWrite.raxtaxMark checks =
        updateRaxtaxChecks checks) := by
  refine ⟨?_, fun checks k =>
    ⟨updateRaxtaxChecks_testBit checks k, updateClearMask_testBit checks k⟩,
    fun checks => ⟨rfl, rfl⟩⟩
  intro w checks k hw h
  cases w <;>
    simp_all [applyChecksWrite, isClearingWrite, Nat.testBit_lor]

/-- C3 witness: the hybrid-flag write on a record with SELECTED set keeps
SELECTED set, with both hypotheses of the monotonicity part discharged at
a concrete input. -/
theorem checks_write_clear_behavior_witness :
    isClearingWrite ChecksWrite.hybridOr = false ∧
    Nat.testBit 1 SELECTED = true ∧
    Nat.testBit (applyChecksWrite ChecksWrite.hybridOr 1) SELECTED = true :=
  ⟨by decide, by decide,
    checks_write_clear_behavior.1 ChecksWrite.hybridOr 1 SELECTED
      (by decide) (by decide)⟩

/-! ## Duplicate-purge dispatch regimes
(src/common/eyebold_database.py `curate` lines 401-404 and `update` lines
216-218; src/tools/sanitizer.py `purge_duplicates_multithreading_2` line
281 with src/common/constants.py lines 22-23) -/

def TRIVIAL_SIZE : Nat := 5000
def SMALL_SIZE : Nat := 50000

inductive PurgeRegime where
  | trivialSeq
  | smallPool
  | hardSweep
deriving DecidableEq

/-- eyebold_database.py lines 401-420 (`curate`): groups with
`len < TRIVIAL_SIZE` go to `purge_duplicates` (trivial sequential regime);
the rest go to `purge_duplicates_multithreading_2`, which files a group as
hard iff `len > SMALL_SIZE` (sanitizer.py line 296) and otherwise processes
it in the simple worker pool. -/
def curateRegime (n : Nat) : PurgeRegime :=
  if n < TRIVIAL_SIZE then .trivialSeq
  else if n > SMALL_SIZE then .hardSweep
  else .smallPool

/-- eyebold_database.py lines 216-228 (`update`): groups with
`len <= TRIVIAL_SIZE` go to `purge_duplicates`; the rest go to
`purge_duplicates_multithreading_2` with the same hard barrier. -/
def updateRegime (n : Nat) : PurgeRegime :=
  if n ≤ TRIVIAL_SIZE then .trivialSeq
  else if n > SMALL_SIZE then .hardSweep
  else .smallPool

/-- C8 counterexample: a taxon group of size exactly TRIVIAL_SIZE is
dispatched to the small worker-pool regime by the curate path (the filter
there is a strict `<`), not to the trivial sequential regime as the claim
states for both paths. -/
theorem trivial_size_regime_counterexample :
    curateRegime TRIVIAL_SIZE = PurgeRegime.smallPool ∧
    curateRegime TRIVIAL_SIZE ≠ PurgeRegime.trivialSeq ∧
    updateRegime TRIVIAL_SIZE = PurgeRegime.trivialSeq := by
  refine ⟨?_, ?_, ?_⟩ <;> decide

/-- C8 amended: in the update path a group of size exactly TRIVIAL_SIZE
(5000) is processed by the trivial sequential regime, size TRIVIAL_SIZE + 1
by the small worker-pool regime, and any size above SMALL_SIZE (50000) by
the hard regime; in the build/curate path the trivial regime only receives
groups strictly smaller than TRIVIAL_SIZE, so a group of exactly
TRIVIAL_SIZE is processed by the small regime there, while the other two
switch points match the update path. -/
theorem purge_dispatch_regimes :
    updateRegime TRIVIAL_SIZE = PurgeRegime.trivialSeq ∧
    updateRegime (TRIVIAL_SIZE + 1) = PurgeRegime.smallPool ∧
    updateRegime SMALL_SIZE = PurgeRegime.smallPool ∧
    updateRegime (SMALL_SIZE + 1) = PurgeRegime.hardSweep ∧
    curateRegime (TRIVIAL_SIZE - 1) = PurgeRegime.trivialSeq ∧
    curateRegime TRIVIAL_SIZE = PurgeRegime.smallPool ∧
    curateRegime (TRIVIAL_SIZE + 1) = PurgeRegime.smallPool ∧
    curateRegime SMALL_SIZE = PurgeRegime.smallPool ∧
    curateRegime (SMALL_SIZE + 1) = PurgeRegime.hardSweep := by
  refine ⟨?_, ?_, ?_, ?_, ?_, ?_, ?_, ?_, ?_⟩ <;> decide

/-- C10: when the classifier bridge marks a specimen as misclassified, the
single update statement both sets BAD_CLASSIFICATION and clears SELECTED;
consequently, after the marking step no record has SELECTED and
BAD_CLASSIFICATION set simultaneously, and the invariant that SELECTED
implies the golden predicate is preserved for every record (provided it
held before the step, which holds for untouched records). -/
theorem raxtax_marking_preserves_golden_invariant (checks : Nat)
    (marked : Bool)
    (hinv : Nat.testBit checks SELECTED = true → isGoldenChecks checks) :
    (marked = true →
      Nat.testBit (raxtaxMarkStep marked checks) BAD_CLASSIFICATION = true ∧
      Nat.testBit (raxtaxMarkStep marked checks) SELECTED = false) ∧
    ¬ (Nat.testBit (raxtaxMarkStep marked checks) SELECTED = true ∧
       Nat.testBit (raxtaxMarkStep marked checks) BAD_CLASSIFICATION = true) ∧
    (Nat.testBit (raxtaxMarkStep marked checks) SELECTED = true →
      isGoldenChecks (raxtaxMarkStep marked checks)) := by
  have hbit := fun k => updateRaxtaxChecks_testBit checks k
  cases marked with
  | true =>
    have hb15 := hbit BAD_CLASSIFICATION
    have hb0 := hbit SELECTED
    simp only [raxtaxMarkStep, if_pos] at *
    refine ⟨fun _ => ⟨?_, ?_⟩, ?_, ?_⟩
    · rw [hb15]; simp
    · rw [hb0]; simp [SELECTED, BAD_CLASSIFICATION]
    · rintro ⟨hsel, _⟩
      rw [hb0] at hsel
      simp [SELECTED, BAD_CLASSIFICATION] at hsel
    · intro hsel
      rw [hb0] at hsel
      simp [SELECTED, BAD_CLASSIFICATION] at hsel
  | false =>
    simp only [raxtaxMarkStep, if_neg, Bool.false_eq_true, not_false_iff,
      ite_false]
    refine ⟨by simp, ?_, hinv⟩
    rintro ⟨hsel, hbad⟩
    have hg := hinv hsel
    rw [isGoldenChecks_iff] at hg
    rw [hg.2.2.2.2] at hbad
    exact Bool.false_ne_true hbad

/-- C10 witness: a record with checks value 3 (SELECTED and NAME_CHECKED)
satisfies the golden invariant, and marking it runs the theorem with both
hypotheses discharged concretely. -/
theorem raxtax_marking_preserves_golden_invariant_witness :
    (Nat.testBit (raxtaxMarkStep true 3) BAD_CLASSIFICATION = true ∧
      Nat.testBit (raxtaxMarkStep true 3) SELECTED = false) ∧
    ¬ (Nat.testBit (raxtaxMarkStep true 3) SELECTED = true ∧
       Nat.testBit (raxtaxMarkStep true 3) BAD_CLASSIFICATION = true) ∧
    (Nat.testBit (raxtaxMarkStep true 3) SELECTED = true →
      isGoldenChecks (raxtaxMarkStep true 3)) := by
  have h := raxtax_marking_preserves_golden_invariant 3 true
    (fun _ => by decide)
  exact ⟨h.1 rfl, h.2.1, h.2.2⟩

/-! ## Duplicate marking (src/tools/sanitizer.py, `_mark_duplicates`) -/

/-- sanitizer.py line 16: characters stripped from both ends. -/
def stripCharsList : List Char := ['_', '-', 'N']

/-- Python `str.strip(chars)`: drop leading and trailing characters that
belong to the set. -/
def pyStrip (s : List Char) (chars : List Char) : List Char :=
  ((s.dropWhile (fun ch => chars.contains ch)).reverse.dropWhile
      (fun ch => chars.contains ch)).reverse

/-- Python `str.replace(c, '')`: remove every occurrence of the character. -/
def pyRemoveAll (s : List Char) (c : Char) : List Char :=
  s.filter (fun ch => ch != c)

/-- sanitizer.py line 42: `nuc_raw.strip(STRIP_CHARS).replace('-', '')`. -/
def nucSan (nuc_raw : List Char) : List Char :=
  pyRemoveAll (pyStrip nuc_raw stripCharsList) '-'

/-- The sanitisation in the order the claim words it: first remove all
gap characters, then strip leading/trailing characters of the set. -/
def nucSanSpec (nuc_raw : List Char) : List Char :=
  pyStrip (pyRemoveAll nuc_raw '-') stripCharsList

lemma filter_dropWhile {α : Type} (p q : α → Bool)
    (hpq : ∀ c, p c = false → q c = true) :
    ∀ l : List α, (l.dropWhile q).filter p = (l.filter p).dropWhile q := by
  intro l
  induction l with
  | nil => rfl
  | cons c l ih =>
    by_cases hq : q c = true
    · rw [List.dropWhile_cons, if_pos hq, ih, List.filter_cons]
      by_cases hp : p c = true
      · rw [if_pos hp, List.dropWhile_cons, if_pos hq]
      · rw [if_neg hp]
    · have hp : p c = true := by
        cases hpc : p c with
        | true => rfl
        | false => exact absurd (hpq c hpc) hq
      rw [List.dropWhile_cons, if_neg hq, List.filter_cons, if_pos hp,
        List.dropWhile_cons, if_neg hq]

lemma nucSan_eq_nucSanSpec (raw : List Char) : nucSan raw = nucSanSpec raw := by
  have hpq : ∀ c : Char, (c != '-') = false →
      stripCharsList.contains c = true := by
    intro c hc
    have hce : c = '-' := by simpa using hc
    subst hce
    decide
  unfold nucSan nucSanSpec pyStrip pyRemoveAll
  rw [List.filter_reverse, filter_dropWhile _ _ hpq, List.filter_reverse,
    filter_dropWhile _ _ hpq]

/-- sanitizer.py lines 59-69: a sequence is flagged duplicate when it is an
exact member of the seen set, or else when it occurs inside some member of
the seen set. -/
def isDupIn (seen : List (List Char)) (s : List Char) : Bool :=
  if seen.contains s then true
  else seen.any (fun seq => decide (s <:+: seq))

/-- sanitizer.py lines 45-77: the sequential scan over the length-sorted
helper list. For each record it collects FAILED_LENGTH when the sanitised
length is below 200 and DUPLICATE per `isDupIn`; unique sequences are added
to the seen set; every record contributes an output row
`(nuc_san, generate_mask(checks), specimenid)`. -/
def markDuplicatesGo (seen : List (List Char)) :
    List (Nat × List Char) → List (List Char × Nat × Nat)
  | [] => []
  | (specimenid, s) :: rest =>
    let checks : List Nat :=
      (if s.length < 200 then [FAILED_LENGTH] else []) ++
        (if isDupIn seen s then [DUPLICATE] else [])
    let seen' := if isDupIn seen s then seen else s :: seen
    (s, generateMask checks, specimenid) :: markDuplicatesGo seen' rest

/-- Python `list.sort(key=lambda x: len(x[1]), reverse=True)` is a stable
sort into nonincreasing length order: insert each element before the first
strictly shorter one, after all earlier elements of at least its length. -/
def insertByLenDesc (x : Nat × List Char) :
    List (Nat × List Char) → List (Nat × List Char)
  | [] => [x]
  | y :: ys =>
    if y.2.length ≤ x.2.length then x :: y :: ys
    else y :: insertByLenDesc x ys

def sortByLenDesc (l : List (Nat × List Char)) : List (Nat × List Char) :=
  l.foldr insertByLenDesc []

/-- sanitizer.py lines 18-77, `_mark_duplicates`: sanitise every sequence,
sort by length descending, then run the sequential duplicate scan with an
empty seen set. -/
def markDuplicates (data : List (Nat × List Char)) :
    List (List Char × Nat × Nat) :=
  let helper := data.map (fun p => (p.1, nucSan p.2))
  markDuplicatesGo [] (sortByLenDesc helper)

lemma markDuplicatesGo_length (seen : List (List Char))
    (l : List (Nat × List Char)) :
    (markDuplicatesGo seen l).length = l.length := by
  induction l generalizing seen with
  | nil => rfl
  | cons p rest ih =>
    obtain ⟨specimenid, s⟩ := p
    simp only [markDuplicatesGo, List.length_cons, ih]

lemma markDuplicatesGo_map_fst (seen : List (List Char))
    (l : List (Nat × List Char)) :
    (markDuplicatesGo seen l).map (fun r => r.1) =
      l.map (fun p => p.2) := by
  induction l generalizing seen with
  | nil => rfl
  | cons p rest ih =>
    obtain ⟨specimenid, s⟩ := p
    simp only [markDuplicatesGo, List.map_cons, ih]

lemma isDupIn_iff (seen : List (List Char)) (s : List Char) :
    isDupIn seen s = true ↔ ∃ t ∈ seen, s <:+: t := by
  unfold isDupIn
  by_cases hc : seen.contains s = true
  · simp only [hc, if_true, true_iff]
    have hs : s ∈ seen := by simpa using hc
    exact ⟨s, hs, List.infix_rfl⟩
  · simp only [hc, if_neg, List.any_eq_true, decide_eq_true_eq]
    simp [hc]

lemma dupBit_of_checks (P : Prop) [Decidable P] (dup : Bool) :
    Nat.testBit
      (generateMask ((if P then [FAILED_LENGTH] else []) ++
        (if dup then [DUPLICATE] else []))) DUPLICATE = dup := by
  by_cases h : P
  · rw [if_pos h]; cases dup <;> decide
  · rw [if_neg h]; cases dup <;> decide

lemma markDuplicatesGo_dup_iff (l : List (Nat × List Char)) :
    ∀ (seen : List (List Char)) (i : Nat) (hi : i < l.length),
      Nat.testBit
          ((markDuplicatesGo seen l).get
            ⟨i, by rw [markDuplicatesGo_length]; exact hi⟩).2.1
          DUPLICATE = true ↔
        ((∃ t ∈ seen, (l.get ⟨i, hi⟩).2 <:+: t) ∨
         ∃ j, ∃ hj : j < i,
           (l.get ⟨i, hi⟩).2 <:+: (l.get ⟨j, lt_trans hj hi⟩).2) := by
  induction l with
  | nil => intro seen i hi; exact absurd hi (Nat.not_lt_zero i)
  | cons p rest ih =>
    intro seen i hi
    obtain ⟨specimenid, s⟩ := p
    cases i with
    | zero =>
      simp only [markDuplicatesGo, List.get]
      rw [dupBit_of_checks, isDupIn_iff]
      constructor
      · intro h
        exact Or.inl h
      · rintro (h | ⟨j, hj, _⟩)
        · exact h
        · exact absurd hj (Nat.not_lt_zero j)
    | succ i =>
      have hi' : i < rest.length := Nat.lt_of_succ_lt_succ hi
      simp only [markDuplicatesGo, List.get]
      rw [ih _ i hi']
      by_cases hdup : isDupIn seen s = true
      · simp only [hdup, if_true]
        constructor
        · rintro (h | ⟨j, hj, hinf⟩)
          · exact Or.inl h
          · exact Or.inr ⟨j + 1, Nat.succ_lt_succ hj, hinf⟩
        · rintro (h | ⟨j, hj, hinf⟩)
          · exact Or.inl h
          · cases j with
            | zero =>
              rcases (isDupIn_iff seen s).mp hdup with ⟨t, ht, hst⟩
              exact Or.inl ⟨t, ht, hinf.trans hst⟩
            | succ j =>
              exact Or.inr ⟨j, Nat.lt_of_succ_lt_succ hj, hinf⟩
      · simp only [hdup, if_neg, if_false]
        constructor
        · rintro (⟨t, ht, hst⟩ | ⟨j, hj, hinf⟩)
          · rcases List.mem_cons.mp ht with h0 | hmem
            · subst h0
              exact Or.inr ⟨0, Nat.succ_pos i, hst⟩
            · exact Or.inl ⟨t, hmem, hst⟩
          · exact Or.inr ⟨j + 1, Nat.succ_lt_succ hj, hinf⟩
        · rintro (⟨t, ht, hst⟩ | ⟨j, hj, hinf⟩)
          · exact Or.inl ⟨t, List.mem_cons_of_mem s ht, hst⟩
          · cases j with
            | zero => exact Or.inl ⟨s, List.mem_cons_self s seen, hinf⟩
            | succ j =>
              exact Or.inr ⟨j, Nat.lt_of_succ_lt_succ hj, hinf⟩

lemma markDuplicatesGo_get_fst (seen : List (List Char))
    (l : List (Nat × List Char)) (i : Nat) (h : i < l.length) :
    ((markDuplicatesGo seen l).get
        ⟨i, by rw [markDuplicatesGo_length]; exact h⟩).1 =
      (l.get ⟨i, h⟩).2 := by
  induction l generalizing seen i with
  | nil => exact absurd h (Nat.not_lt_zero i)
  | cons p rest ih =>
    obtain ⟨specimenid, s⟩ := p
    cases i with
    | zero => rfl
    | succ i => exact ih _ i (Nat.lt_of_succ_lt_succ h)

lemma mem_insertByLenDesc (x w : Nat × List Char) :
    ∀ l, w ∈ insertByLenDesc x l ↔ w = x ∨ w ∈ l := by
  intro l
  induction l with
  | nil => simp [insertByLenDesc]
  | cons y ys ih =>
    unfold insertByLenDesc
    by_cases hc : y.2.length ≤ x.2.length
    · simp only [hc, if_true, List.mem_cons]
    · simp only [hc, if_neg, if_false, List.mem_cons, ih]
      tauto

lemma insertByLenDesc_pairwise (x : Nat × List Char)
    (l : List (Nat × List Char))
    (h : l.Pairwise (fun a b => b.2.length ≤ a.2.length)) :
    (insertByLenDesc x l).Pairwise (fun a b => b.2.length ≤ a.2.length) := by
  induction l with
  | nil => simp [insertByLenDesc]
  | cons y ys ih =>
    rcases List.pairwise_cons.mp h with ⟨hy, hys⟩
    unfold insertByLenDesc
    by_cases hc : y.2.length ≤ x.2.length
    · rw [if_pos hc]
      refine List.pairwise_cons.mpr ⟨?_, h⟩
      intro z hz
      rcases List.mem_cons.mp hz with h0 | hmem
      · subst h0; exact hc
      · exact le_trans (hy z hmem) hc
    · rw [if_neg hc]
      refine List.pairwise_cons.mpr ⟨?_, ih hys⟩
      intro w hw
      rcases (mem_insertByLenDesc x w ys).mp hw with h0 | hmem
      · subst h0
        exact le_of_lt (lt_of_not_le hc)
      · exact hy w hmem

lemma sortByLenDesc_pairwise (l : List (Nat × List Char)) :
    (sortByLenDesc l).Pairwise (fun a b => b.2.length ≤ a.2.length) := by
  unfold sortByLenDesc
  induction l with
  | nil => exact List.Pairwise.nil
  | cons x xs ih => exact insertByLenDesc_pairwise x _ ih

/-- C2: for every taxon group, after the sequential duplicate-marking pass,
sanitisation agrees with the order the claim states it in (remove all
gaps, strip leading/trailing strip characters); the processed order is
length-nonincreasing; and a record at position i has DUPLICATE set iff some
record at an earlier position j, whose sanitised sequence is at least as
long, contains the sanitised sequence of i as a substring (equality
included). In particular the first occurrence stays unmarked. -/
theorem mark_duplicates_duplicate_iff :
    (∀ raw : List Char, nucSan raw = nucSanSpec raw) ∧
    (∀ data : List (Nat × List Char),
      (markDuplicates data).Pairwise
        (fun r r2 => r2.1.length ≤ r.1.length)) ∧
    (∀ (data : List (Nat × List Char)) (i : Nat)
        (hi : i < (markDuplicates data).length),
      Nat.testBit ((markDuplicates data).get ⟨i, hi⟩).2.1 DUPLICATE = true ↔
        ∃ j, ∃ hj : j < i,
          ((markDuplicates data).get ⟨i, hi⟩).1.length ≤
            ((markDuplicates data).get ⟨j, lt_trans hj hi⟩).1.length ∧
          ((markDuplicates data).get ⟨i, hi⟩).1 <:+:
            ((markDuplicates data).get ⟨j, lt_trans hj hi⟩).1) := by
  refine ⟨nucSan_eq_nucSanSpec, ?_, ?_⟩
  · intro data
    unfold markDuplicates
    have hsorted := sortByLenDesc_pairwise (data.map fun p => (p.1, nucSan p.2))
    have hmap := markDuplicatesGo_map_fst []
      (sortByLenDesc (data.map fun p => (p.1, nucSan p.2)))
    have hp2 : ((sortByLenDesc (data.map fun p => (p.1, nucSan p.2))).map
        (fun p => p.2)).Pairwise (fun u v => v.length ≤ u.length) :=
      hsorted.map _ (fun a b hab => hab)
    rw [← hmap] at hp2
    exact (List.pairwise_map).mp hp2
  · intro data i hi
    unfold markDuplicates at hi ⊢
    have hi' : i < (sortByLenDesc (data.map fun p => (p.1, nucSan p.2))).length := by
      rw [markDuplicatesGo_length] at hi
      exact hi
    have hfst : ∀ (k : Nat)
        (hk : k < (sortByLenDesc (data.map fun p => (p.1, nucSan p.2))).length),
        ((markDuplicatesGo []
            (sortByLenDesc (data.map fun p => (p.1, nucSan p.2)))).get
          ⟨k, by rw [markDuplicatesGo_length]; exact hk⟩).1 =
          ((sortByLenDesc (data.map fun p => (p.1, nucSan p.2))).get
            ⟨k, hk⟩).2 :=
      fun k hk => markDuplicatesGo_get_fst [] _ k hk
    rw [markDuplicatesGo_dup_iff _ [] i hi']
    constructor
    · rintro (⟨t, ht, _⟩ | ⟨j, hj, hinf⟩)
      · exact absurd ht (List.not_mem_nil t)
      · refine ⟨j, hj, ?_, ?_⟩
        · rw [hfst i hi', hfst j (lt_trans hj hi')]
          exact hinf.length_le
        · rw [hfst i hi', hfst j (lt_trans hj hi')]
          exact hinf
    · rintro ⟨j, hj, _, hinf⟩
      right
      refine ⟨j, hj, ?_⟩
      rw [hfst i hi', hfst j (lt_trans hj hi')] at hinf
      exact hinf

/-- Concrete group used to instantiate the C2 theorem: the second record's
sanitised sequence occurs inside the first (longer) one. -/
def dupWitnessData : List (Nat × List Char) :=
  [(1, ['C', 'G']), (2, ['A', 'C', 'G', 'T'])]

/-- C2 witness: on the concrete group the theorem applies at position 1 with
its bound hypothesis discharged by computation, and the record there is
indeed marked DUPLICATE because of the record at position 0. -/
theorem mark_duplicates_duplicate_iff_witness :
    1 < (markDuplicates dupWitnessData).length ∧
    (Nat.testBit ((markDuplicates dupWitnessData).get
        ⟨1, by decide⟩).2.1 DUPLICATE = true ↔
      ∃ j, ∃ hj : j < 1,
        ((markDuplicates dupWitnessData).get ⟨1, by decide⟩).1.length ≤
          ((markDuplicates dupWitnessData).get
            ⟨j, lt_trans hj (by decide)⟩).1.length ∧
        ((markDuplicates dupWitnessData).get ⟨1, by decide⟩).1 <:+:
          ((markDuplicates dupWitnessData).get
            ⟨j, lt_trans hj (by decide)⟩).1) :=
  ⟨by decide, mark_duplicates_duplicate_iff.2.2 dupWitnessData 1 (by decide)⟩

/-! ## Classifier FASTA export
(src/common/eyebold_database.py, `_export_fasta_raxtax` lines 727-778 and
`_export_raxtax_db_file` lines 621-637) -/

/-- Row shape delivered by the export queries:
`SELECT checks, specimenid, nuc_san, phylum, class, order, family, genus,
species FROM specimen ...`. -/
structure RaxtaxRow where
  checks : Nat
  specimenid : Nat
  seq : List Char
  phylum : List Char
  class_ : List Char
  order : List Char
  family : List Char
  genus : List Char
  species : List Char

/-- One emitted FASTA record: `>{specimenid};tax={tax_parts ,-joined};` then
the sequence line. -/
structure RaxtaxFastaRecord where
  specimenid : Nat
  taxParts : List (List Char)
  seq : List Char
deriving DecidableEq

/-- Python `name.replace(' ', '_')`. -/
def pyReplaceSpace (s : List Char) : List Char :=
  s.map (fun ch => if ch = ' ' then '_' else ch)

/-- eyebold_database.py line 761. -/
def validChars : List Char := ['A', 'G', 'C', 'T']

/-- eyebold_database.py lines 740-778: the per-row body of
`_export_fasta_raxtax`. The `file.write` sits inside the innermost of the
six nested INCL_* conditionals, and the sequence-alphabet check is also
innermost, so a record is written only when every one of the six bits is
set and the sequence is pure A/C/G/T. -/
def writeRaxtaxRow (row : RaxtaxRow) : Option RaxtaxFastaRecord :=
  if row.checks &&& (1 <<< INCL_PHYLUM) ≠ 0 then
    if row.checks &&& (1 <<< INCL_CLASS) ≠ 0 then
      if row.checks &&& (1 <<< INCL_ORDER) ≠ 0 then
        if row.checks &&& (1 <<< INCL_FAMILY) ≠ 0 then
          if row.checks &&& (1 <<< INCL_GENUS) ≠ 0 then
            if row.checks &&& (1 <<< INCL_SPECIES) ≠ 0 then
              if row.seq.all (fun ch => validChars.contains ch) then
                some { specimenid := row.specimenid,
                       taxParts := [pyReplaceSpace row.phylum,
                                    pyReplaceSpace row.class_,
                                    pyReplaceSpace row.order,
                                    pyReplaceSpace row.family,
                                    pyReplaceSpace row.genus,
                                    pyReplaceSpace row.species],
                       seq := row.seq }
              else none
            else none
          else none
        else none
      else none
    else none
  else none

def exportFastaRaxtax (rows : List RaxtaxRow) : List RaxtaxFastaRecord :=
  rows.filterMap writeRaxtaxRow

/-- eyebold_database.py lines 621-637: the reference export feeds
`_export_fasta_raxtax` with the rows satisfying `checks & 1 = 1`
(SELECTED). -/
def exportRaxtaxDbFile (rows : List RaxtaxRow) : List RaxtaxFastaRecord :=
  exportFastaRaxtax (rows.filter (fun r => r.checks &&& 1 == 1))

lemma land_shift_ne_zero (c b : Nat) :
    (c &&& (1 <<< b) ≠ 0) ↔ Nat.testBit c b = true := by
  rw [Nat.shiftLeft_eq, one_mul, Nat.and_two_pow]
  cases h : Nat.testBit c b with
  | true =>
    have hp : (2 : Nat) ^ b ≠ 0 := Nat.pos_iff_ne_zero.mp (Nat.pos_pow_of_pos b (by norm_num))
    simp [h, hp]
  | false => simp [h]

/-- C6 counterexample: a SELECTED record with a pure-ACGT sequence whose
INCL_PHYLUM through INCL_GENUS bits are set but whose INCL_SPECIES bit is
clear (a proper partial prefix) is not exported at all, while the claim
says it is exported with the shorter tax list. Checks value
5059 = bits {0,1,6,7,8,9,12}. -/
theorem partial_prefix_not_exported_counterexample :
    (({ checks := 5059, specimenid := 7, seq := ['A', 'C', 'G', 'T'],
        phylum := ['P'], class_ := ['C'], order := ['O'], family := ['F'],
        genus := ['G'], species := ['S'] } : RaxtaxRow).checks &&& 1 = 1) ∧
    Nat.testBit (5059 : Nat) INCL_PHYLUM = true ∧
    Nat.testBit (5059 : Nat) INCL_GENUS = true ∧
    Nat.testBit (5059 : Nat) INCL_SPECIES = false ∧
    (['A', 'C', 'G', 'T'].all (fun ch => validChars.contains ch) = true) ∧
    exportRaxtaxDbFile
      [{ checks := 5059, specimenid := 7, seq := ['A', 'C', 'G', 'T'],
         phylum := ['P'], class_ := ['C'], order := ['O'], family := ['F'],
         genus := ['G'], species := ['S'] }] = [] := by
  refine ⟨by decide, by decide, by decide, by decide, by decide, ?_⟩
  decide

/-- C6 amended: the classifier-FASTA reference export contains one record
for each SELECTED row whose INCL_PHYLUM through INCL_SPECIES bits are ALL
set and whose sequence contains only characters in A,C,G,T; such a record
carries the full six-name tax list with spaces replaced by underscores;
rows missing any of the six INCL_* bits (partial prefixes included) are
skipped entirely. -/
theorem raxtax_export_requires_full_lineage :
    (∀ row : RaxtaxRow,
      writeRaxtaxRow row =
        if (Nat.testBit row.checks INCL_PHYLUM &&
            Nat.testBit row.checks INCL_CLASS &&
            Nat.testBit row.checks INCL_ORDER &&
            Nat.testBit row.checks INCL_FAMILY &&
            Nat.testBit row.checks INCL_GENUS &&
            Nat.testBit row.checks INCL_SPECIES &&
            row.seq.all (fun ch => validChars.contains ch)) = true
        then some { specimenid := row.specimenid,
                    taxParts := [pyReplaceSpace row.phylum,
                                 pyReplaceSpace row.class_,
                                 pyReplaceSpace row.order,
                                 pyReplaceSpace row.family,
                                 pyReplaceSpace row.genus,
                                 pyReplaceSpace row.species],
                    seq := row.seq }
        else none) ∧
    (∀ (rows : List RaxtaxRow) (rec : RaxtaxFastaRecord),
      rec ∈ exportRaxtaxDbFile rows ↔
        ∃ row ∈ rows, row.checks &&& 1 = 1 ∧ writeRaxtaxRow row = some rec) := by
  constructor
  · intro row
    unfold writeRaxtaxRow
    simp only [land_shift_ne_zero]
    by_cases h1 : Nat.testBit row.checks INCL_PHYLUM = true
    · by_cases h2 : Nat.testBit row.checks INCL_CLASS = true
      · by_cases h3 : Nat.testBit row.checks INCL_ORDER = true
        · by_cases h4 : Nat.testBit row.checks INCL_FAMILY = true
          · by_cases h5 : Nat.testBit row.checks INCL_GENUS = true
            · by_cases h6 : Nat.testBit row.checks INCL_SPECIES = true
              · simp [h1, h2, h3, h4, h5, h6]
              · simp [h1, h2, h3, h4, h5, h6]
            · simp [h1, h2, h3, h4, h5]
          · simp [h1, h2, h3, h4]
        · simp [h1, h2, h3]
      · simp [h1, h2]
    · simp [h1]
  · intro rows rec
    unfold exportRaxtaxDbFile exportFastaRaxtax
    simp only [List.mem_filterMap, List.mem_filter, beq_iff_eq]
    tauto

/-! ## Geo evaluator (src/tools/tracker.py, `_evaluate_location` lines
417-479 and `_mark_keys_as_checked` lines 99-119) -/

/-- Python exception outcomes that the embedded fallible code can raise. -/
inductive PyExc where
  | unboundLocalError (name : String)
  | indexError
  | keyError
  | valueError
  | attributeError

def pyUpperL (s : List Char) : List Char := s.map Char.toUpper

def pyLowerL (s : List Char) : List Char := s.map Char.toLower

inductive TransportError where
  | timeout
  | connectionError
deriving DecidableEq

inductive HarmonizerEvent where
  | remoteCall
  | sleepSeconds (seconds : Nat)
  | returnFailureResult
deriving DecidableEq

/-- gbif.py lines 88-106: the worker wraps a single `name_backbone` call in
a try block; the except handler logs the error and immediately returns the
failure value. There is no loop around the call and no sleep in this path
(the only sleeps in gbif.py are the 60-second polling waits of the
occurrence-download functions), so on a transport error the observable
event trace is one remote call followed by the failure return. -/
def workerTransportTrace : TransportError → List HarmonizerEvent :=
  fun _ => [HarmonizerEvent.remoteCall, HarmonizerEvent.returnFailureResult]

/-- Python values as far as the embedded dictionaries need them.
`resultRepr` stands for the opaque string `str(result)` stored under
processing_info. -/
inductive PyVal where
  | str (s : List Char)
  | int (n : Nat)
  | noneV
  | resultRepr
deriving DecidableEq

/-- The fields of a GBIF name-backbone response that
`query_name_backbone_b2t` reads. `ranks` gives `result[r]`/`result.get(r)`
for rank names, `none` meaning the key is absent. -/
structure GbifResult where
  matchType : Option (List Char)
  confidence : Option Nat
  status : Option (List Char)
  rank : Option (List Char)
  usageKey : Option Nat
  ranks : List Char → Option (List Char)

/-- The `GbifName` dataclass (src/sqlite/parser.py lines 36-44), with the
raw result dict abstracted to an optional response (`none` models the empty
dict `{}`). -/
structure GbifNameRecord where
  oldName : Option (List Char)
  rank : Option (List Char)
  result : Option GbifResult
  insertDict : List (List Char × PyVal)
  specimenids : List Nat

/-- gbif.py line 106: the value returned by the except handler,
`GbifName(query.get('query'), query_rank, {}, {}, query.get('specimenids',
[]))`. -/
def queryNameBackboneB2tOnTransportError (query rank : Option (List Char))
    (ids : List Nat) : GbifNameRecord :=
  { oldName := query, rank := rank, result := none, insertDict := [],
    specimenids := ids }

/-- Modelled from the spec: the retry behaviour the specification claims
for a worker whose remote calls all fail with transport errors, namely up
to 3 retries with a 30-second sleep between retries before the failure
return. -/
def claimedTransportTrace : List HarmonizerEvent :=
  [HarmonizerEvent.remoteCall, HarmonizerEvent.sleepSeconds 30,
   HarmonizerEvent.remoteCall, HarmonizerEvent.sleepSeconds 30,
   HarmonizerEvent.remoteCall, HarmonizerEvent.sleepSeconds 30,
   HarmonizerEvent.remoteCall, HarmonizerEvent.returnFailureResult]

def isSleepEvent : HarmonizerEvent → Bool
  | HarmonizerEvent.sleepSeconds _ => true
  | _ => false

/-- C5 counterexample: on a transport error the worker makes exactly one
remote call and performs no sleep at all, so its trace is not the claimed
retry trace (three retries with 30-second sleeps). -/
theorem transport_error_single_attempt_counterexample :
    workerTransportTrace TransportError.timeout =
      [HarmonizerEvent.remoteCall, HarmonizerEvent.returnFailureResult] ∧
    (workerTransportTrace TransportError.timeout).count
      HarmonizerEvent.remoteCall = 1 ∧
    (workerTransportTrace TransportError.timeout).countP isSleepEvent = 0 ∧
    workerTransportTrace TransportError.timeout ≠ claimedTransportTrace := by
  refine ⟨rfl, by decide, by decide, by decide⟩

/-- C5 amended: a harmoniser worker whose remote call fails with a
transport error makes exactly one remote call, never sleeps, and
immediately returns the failure value (query string and rank preserved,
empty result and insert dictionaries, the specimen ids of the item) so that
the pipeline continues with the other items. -/
theorem transport_error_no_retry :
    ∀ (e : TransportError) (query rank : Option (List Char))
      (ids : List Nat),
      (workerTransportTrace e).count HarmonizerEvent.remoteCall = 1 ∧
      (workerTransportTrace e).countP isSleepEvent = 0 ∧
      queryNameBackboneB2tOnTransportError query rank ids =
        { oldName := query, rank := rank, result := none, insertDict := [],
          specimenids := ids } := by
  intro e query rank ids
  cases e <;> exact ⟨by decide, by decide, rfl⟩

/-! ## Harmoniser response handling
(src/gbif/gbif.py, `query_name_backbone_b2t` lines 78-214, with
`BitIndex.from_string` from src/sqlite/Bitvector.py lines 91-122 and the
taxonomy maps from src/sqlite/parser.py lines 222-263) -/

def sNONE : List Char := ['N','O','N','E']
def sEXACT : List Char := ['E','X','A','C','T']
def sFUZZY : List Char := ['F','U','Z','Z','Y']
def sHIGHERRANK : List Char := ['H','I','G','H','E','R','R','A','N','K']

def rKingdom : List Char := ['k','i','n','g','d','o','m']
def rPhylum : List Char := ['p','h','y','l','u','m']
def rClass : List Char := ['c','l','a','s','s']
def rOrder : List Char := ['o','r','d','e','r']
def rFamily : List Char := ['f','a','m','i','l','y']
def rSubfamily : List Char := ['s','u','b','f','a','m','i','l','y']
def rTribe : List Char := ['t','r','i','b','e']
def rGenus : List Char := ['g','e','n','u','s']
def rSpecies : List Char := ['s','p','e','c','i','e','s']
def rSubspecies : List Char := ['s','u','b','s','p','e','c','i','e','s']

/-- gbif.py line 146: the rank names walked when copying response fields. -/
def tenRanks : List (List Char) :=
  [rKingdom, rPhylum, rClass, rOrder, rFamily, rSubfamily, rTribe, rGenus,
   rSpecies, rSubspecies]

def taxPfx : List Char := ['t','a','x','o','n','_']

/-- parser.py lines 222-233, TAXONOMY_MAP: rank name to specimen column. -/
def taxonomyMap : List (List Char × List Char) :=
  [(rKingdom, taxPfx ++ rKingdom), (rPhylum, taxPfx ++ rPhylum),
   (rClass, taxPfx ++ rClass), (rOrder, taxPfx ++ rOrder),
   (rFamily, taxPfx ++ rFamily), (rSubfamily, taxPfx ++ rSubfamily),
   (rTribe, taxPfx ++ rTribe), (rGenus, taxPfx ++ rGenus),
   (rSpecies, taxPfx ++ rSpecies), (rSubspecies, taxPfx ++ rSubspecies)]

/-- parser.py lines 237-248, TAXONOMY_TO_INT. -/
def taxonomyToInt : List (List Char × Nat) :=
  [(rKingdom, 1), (rPhylum, 2), (rClass, 3), (rOrder, 4), (rFamily, 5),
   (rSubfamily, 6), (rTribe, 7), (rGenus, 8), (rSpecies, 9),
   (rSubspecies, 10)]

/-- parser.py lines 252-263, INT_TO_TAXONOMY. -/
def intToTaxonomy (n : Nat) : Option (List Char) :=
  (([(1, rKingdom), (2, rPhylum), (3, rClass), (4, rOrder), (5, rFamily),
     (6, rSubfamily), (7, rTribe), (8, rGenus), (9, rSpecies),
     (10, rSubspecies)] : List (Nat × List Char))).lookup n

/-- Python `str.strip()` with no argument: trim surrounding whitespace. -/
def pyStripWS (s : List Char) : List Char :=
  ((s.dropWhile Char.isWhitespace).reverse.dropWhile
      Char.isWhitespace).reverse

/-- Bitvector.py lines 91-122, `BitIndex.from_string`: lowercase and strip
the name, look it up among the ten rank-inclusion bits, raise ValueError on
anything else. -/
def bitIndexFromString (name : List Char) : Except PyExc Nat :=
  let san := pyStripWS (pyLowerL name)
  match (([(rKingdom, INCL_KINGDOM), (rPhylum, INCL_PHYLUM),
    (rClass, INCL_CLASS), (rOrder, INCL_ORDER), (rFamily, INCL_FAMILY),
    (rSubfamily, INCL_SUBFAMILY), (rTribe, INCL_TRIBE),
    (rGenus, INCL_GENUS), (rSpecies, INCL_SPECIES),
    (rSubspecies, INCL_SUBSPECIES)] : List (List Char × Nat)).lookup san)
  with
  | some res => Except.ok res
  | none => Except.error PyExc.valueError

/-- Python dict assignment `d[k] = v`: overwrite in place or append. -/
def dictSet (d : List (List Char × PyVal)) (k : List Char) (v : PyVal) :
    List (List Char × PyVal) :=
  if (d.map Prod.fst).contains k then
    d.map (fun kv => if kv.1 = k then (k, v) else kv)
  else d ++ [(k, v)]

/-- Python `list.remove(x)`: remove the first occurrence, ValueError when
absent. -/
def pyRemove (l : List Nat) (x : Nat) : Except PyExc (List Nat) :=
  if l.contains x then Except.ok (l.erase x) else Except.error PyExc.valueError

/-- gbif.py lines 156-165 and 200-208: walk current_rank from subspecies
(10) down to just above endRank, each step removing the corresponding rank
bit (the try/except swallows the ValueError of an absent element, so the
removal is a plain erase). -/
def removeLoop (endRank : Nat) : Nat → List Nat → Except PyExc (List Nat)
  | 0, il => Except.ok il
  | current+1, il =>
    if current + 1 > endRank then
      match intToTaxonomy (current + 1) with
      | none => Except.error PyExc.keyError
      | some rname =>
        match bitIndexFromString rname with
        | Except.error e => Except.error e
        | Except.ok b => removeLoop endRank current (il.erase b)
    else Except.ok il

/-- One harmoniser query object (gbif.py lines 87, 106-108: the fields of
the query dict that the function reads). -/
structure GbifQueryB2t where
  query : Option (List Char)
  rank : Option (List Char)
  specimenids : List Nat

def kProcessingInfo : List Char :=
  ['p','r','o','c','e','s','s','i','n','g','_','i','n','f','o']
def kChecks : List Char := ['c','h','e','c','k','s']
def kGbifKey : List Char := ['g','b','i','f','_','k','e','y']

/-- gbif.py lines 78-214: the response handling of
`query_name_backbone_b2t` after a successful remote call, embedded with
Python local-variable semantics: the NONE/confidence-100 branch at lines
126-133 appends to `index_list`, whose first assignment is the later line
135, so executing that branch raises UnboundLocalError. -/
def queryNameBackboneB2t (query : GbifQueryB2t) (result : GbifResult) :
    Except PyExc GbifNameRecord :=
  let query_rank := query.rank
  let new_data : GbifNameRecord :=
    { oldName := query.query, rank := query_rank, result := some result,
      insertDict := dictSet [] kProcessingInfo PyVal.resultRepr,
      specimenids := query.specimenids }
  let match_type := result.matchType
  let confidence := result.confidence.getD 100
  let status := result.status
  let match_rank := result.rank
  if match_type = some sNONE ∧ confidence = 100 then
    Except.error (PyExc.unboundLocalError "index_list")
  else
    match query_rank with
    | none => Except.error PyExc.attributeError
    | some qr =>
      match bitIndexFromString qr with
      | Except.error e => Except.error e
      | Except.ok qbit =>
        let index_list := [qbit]
        if match_type = some sEXACT ∨ match_type = some sFUZZY ∨
            match_type = some sHIGHERRANK then
          let index_list := index_list ++ [NAME_CHECKED]
          match tenRanks.foldlM
              (fun (acc : List (List Char × PyVal) × List Nat) res_rank =>
                match result.ranks res_rank with
                | some v =>
                  match taxonomyMap.lookup res_rank with
                  | none => Except.error PyExc.keyError
                  | some col =>
                    match bitIndexFromString res_rank with
                    | Except.error e => Except.error e
                    | Except.ok b =>
                      Except.ok (dictSet acc.1 col (PyVal.str v),
                        acc.2 ++ [b])
                | none => Except.ok acc)
              (new_data.insertDict, index_list) with
          | Except.error e => Except.error e
          | Except.ok (d1, il1) =>
            match (if status = some sHIGHERRANK ∨
                match_type = some sHIGHERRANK then
                match pyRemove il1 qbit with
                | Except.error e => Except.error e
                | Except.ok il2 =>
                  match match_rank with
                  | none => Except.error PyExc.attributeError
                  | some mr =>
                    match taxonomyToInt.lookup (pyLowerL mr) with
                    | none => Except.error PyExc.keyError
                    | some endRank => removeLoop endRank 10 il2
              else Except.ok il1) with
            | Except.error e => Except.error e
            | Except.ok il3 =>
              let d2 := dictSet d1 kChecks (PyVal.int (generateMask il3))
              let d3 := dictSet d2 kGbifKey
                (match result.usageKey with
                 | some k => PyVal.int k
                 | none => PyVal.noneV)
              match match_rank with
              | none => Except.ok { new_data with insertDict := d3 }
              | some mr =>
                if pyUpperL mr ≠ pyUpperL qr ∧
                    ¬ match_type = some sHIGHERRANK then
                  match result.ranks (pyLowerL qr) with
                  | some sane =>
                    match taxonomyMap.lookup qr with
                    | none => Except.error PyExc.keyError
                    | some col =>
                      Except.ok { new_data with
                        insertDict := dictSet d3 col (PyVal.str sane) }
                  | none =>
                    match pyRemove il3 qbit with
                    | Except.error e => Except.error e
                    | Except.ok il4 =>
                      match taxonomyToInt.lookup (pyLowerL mr) with
                      | none => Except.error PyExc.keyError
                      | some endRank =>
                        match removeLoop endRank 10 il4 with
                        | Except.error e => Except.error e
                        | Except.ok il5 =>
                          Except.ok { new_data with
                            insertDict := dictSet d3 kChecks
                              (PyVal.int (generateMask il5)) }
                else Except.ok { new_data with insertDict := d3 }
        else Except.ok new_data

/-- C4 (code bug): for every harmoniser query whose response has match
type NONE with maximal confidence (100, which is also the default when the
field is absent), the handler raises UnboundLocalError instead of
returning the terminal-failure result with NAME_CHECKED and NAME_FAILED
set: the branch at gbif.py lines 126-133 appends to `index_list`, a local
variable first assigned only at line 135. -/
theorem none_match_raises_unbound_local (query : GbifQueryB2t)
    (result : GbifResult) (h1 : result.matchType = some sNONE)
    (h2 : result.confidence.getD 100 = 100) :
    queryNameBackboneB2t query result =
      Except.error (PyExc.unboundLocalError "index_list") := by
  unfold queryNameBackboneB2t
  rw [if_pos ⟨h1, h2⟩]

/-- Concrete failing input for C4: a species query whose response is a
definite no-match. -/
def noneQuery : GbifQueryB2t :=
  { query := some ['A','b','c'], rank := some rSpecies, specimenids := [3] }

def noneResult : GbifResult :=
  { matchType := some sNONE, confidence := some 100, status := none,
    rank := none, usageKey := none, ranks := fun _ => none }

/-- C4 witness: the theorem applied at the concrete failing input, both
hypotheses discharged by computation. -/
theorem none_match_raises_unbound_local_witness :
    queryNameBackboneB2t noneQuery noneResult =
      Except.error (PyExc.unboundLocalError "index_list") :=
  none_match_raises_unbound_local noneQuery noneResult rfl rfl

/-! ## Ingest round trip
(src/sqlite/parser.py `TsvParser.__next__` lines 459-544 and
`TsvUpdateParser.__next__` lines 619-701; src/sqlite/builder.py
`create_database` lines 95-183 and `insert_updates` lines 241-311) -/

def kSpecimenid : List Char := ['s','p','e','c','i','m','e','n','i','d']
def kNuc : List Char := ['n','u','c']
def kMarkerCode : List Char := ['m','a','r','k','e','r','_','c','o','d','e']

/-- One TSV data row as the csv DictReader delivers it after header
renaming: ordered (column, cell) pairs, a `none` cell standing for a
missing value. -/
structure TsvRow where
  cells : List (List Char × Option (List Char))

/-- parser.py `_transform_value` (lines 437-453, identical at 597-613):
None, empty-after-strip and literal None cells become null, anything else
goes through the column parser. The schema parser functions are abstracted
as string transformers; what matters downstream is their `str()` image,
which is what the content hash consumes. -/
def pyTransformValue (value : Option (List Char))
    (pars_func : List Char → List Char) : Option (List Char) :=
  match value with
  | none => none
  | some v =>
    if pyStripWS v = [] ∨ pyStripWS v = ['N','o','n','e'] then none
    else some (pars_func v)

/-- parser.py lines 432-435 (identical at 592-595), `_null_data` with
NOT_NULL_MAP demanding specimenid and nuc. -/
def pyNullData (key : List Char) (value : Option (List Char)) : Bool :=
  if key = kSpecimenid ∨ key = kNuc then value.isNone else false

/-- Python `str(value)` of a transformed cell: null prints as None. -/
def pyStrOfCell : Option (List Char) → List Char
  | none => ['N','o','n','e']
  | some v => v

/-- Python `''.join(parts)`. -/
def pyJoinEmpty (parts : List (List Char)) : List Char :=
  parts.foldr (fun a b => a ++ b) []

/-- Dict lookup `row.get(k, None)` on the raw row. -/
def rowGet (row : TsvRow) (k : List Char) : Option (List Char) :=
  match row.cells.lookup k with
  | some v => v
  | none => none

/-- parser.py lines 487-541 (`TsvParser.__next__`, build mode), restricted
to the observables the ingest diff compares: `none` when the row is
skipped (marker mismatch or null mandatory field), otherwise the
specimenid cell and the content hash
`sha256(''.join(str(v) for v in transformed_row.values()))`. The hash is
computed before specimen_rows gains the nuc_raw/last_updated/kg_zone
fields, so only the transformed row enters it. -/
def tsvParserParseRow (sha : List Char → List Char)
    (dataParsers : List (List Char × (List Char → List Char)))
    (marker_code : List Char) (row : TsvRow) :
    Option (List Char × List Char) :=
  match rowGet row kMarkerCode with
  | none => none
  | some marker =>
    if marker_code = marker then
      let transformed_row := row.cells.map (fun kv =>
        (kv.1, pyTransformValue kv.2 ((dataParsers.lookup kv.1).getD id)))
      if transformed_row.any (fun kv => pyNullData kv.1 kv.2) then none
      else
        let hash_in := transformed_row.map (fun kv => pyStrOfCell kv.2)
        match transformed_row.lookup kSpecimenid with
        | some (some idv) => some (idv, sha (pyJoinEmpty hash_in))
        | _ => none
    else none

/-- parser.py lines 647-698 (`TsvUpdateParser.__next__`, update mode): the
row processing is line-for-line the same as the build parser; the returned
triple carries the same specimenid and hash. -/
def tsvUpdateParserParseRow (sha : List Char → List Char)
    (dataParsers : List (List Char × (List Char → List Char)))
    (marker_code : List Char) (row : TsvRow) :
    Option (List Char × List Char) :=
  match rowGet row kMarkerCode with
  | none => none
  | some marker =>
    if marker_code = marker then
      let transformed_row := row.cells.map (fun kv =>
        (kv.1, pyTransformValue kv.2 ((dataParsers.lookup kv.1).getD id)))
      if transformed_row.any (fun kv => pyNullData kv.1 kv.2) then none
      else
        let hash_in := transformed_row.map (fun kv => pyStrOfCell kv.2)
        match transformed_row.lookup kSpecimenid with
        | some (some idv) => some (idv, sha (pyJoinEmpty hash_in))
        | _ => none
    else none

/-- builder.py lines 154-180: build mode inserts one specimen row per
parsed TSV row; the stored hash column is the parser's hash, keyed by
specimenid. -/
def buildSpecimenTable (sha : List Char → List Char)
    (dataParsers : List (List Char × (List Char → List Char)))
    (marker_code : List Char) (fileRows : List TsvRow) :
    List (List Char × List Char) :=
  fileRows.filterMap (tsvParserParseRow sha dataParsers marker_code)

/-- builder.py lines 285-296 (`insert_updates` loop): for every parsed row,
look its specimenid up in the specimen table; a missing id is new, a
present id with a different hash is changed, a present id with an equal
hash is skipped. -/
def insertUpdatesScan (table : List (List Char × List Char)) :
    List (List Char × List Char) → List (List Char) × List (List Char)
  | [] => ([], [])
  | (id_, hash_) :: rest =>
    let tailRes := insertUpdatesScan table rest
    match table.lookup id_ with
    | some oldHash =>
      if hash_ ≠ oldHash then (tailRes.1, id_ :: tailRes.2) else tailRes
    | none => (id_ :: tailRes.1, tailRes.2)

/-- builder.py lines 241-311, `insert_updates` against a given specimen
table: the (new ids, changed ids) pair. -/
def insertUpdatesIds (sha : List Char → List Char)
    (dataParsers : List (List Char × (List Char → List Char)))
    (marker_code : List Char) (table : List (List Char × List Char))
    (fileRows : List TsvRow) : List (List Char) × List (List Char) :=
  insertUpdatesScan table
    (fileRows.filterMap (tsvUpdateParserParseRow sha dataParsers marker_code))

lemma lookup_of_mem_nodupkeys (l : List (List Char × List Char))
    (a b : List Char) (hmem : (a, b) ∈ l)
    (hnd : (l.map Prod.fst).Nodup) : l.lookup a = some b := by
  induction l with
  | nil => cases hmem
  | cons p rest ih =>
    obtain ⟨a0, b0⟩ := p
    rw [List.map_cons, List.nodup_cons] at hnd
    rcases List.mem_cons.mp hmem with heq | hmem2
    · obtain ⟨ha, hb⟩ := Prod.mk.injEq a b a0 b0 ▸ heq
      subst ha
      subst hb
      simp [List.lookup]
    · have hfst : a ∈ List.map Prod.fst rest :=
        List.mem_map_of_mem Prod.fst hmem2
      have hne : a ≠ a0 := fun hcontra => hnd.1 (hcontra ▸ hfst)
      have hbeq : (a == a0) = false := beq_eq_false_iff_ne.mpr hne
      simp only [List.lookup, hbeq]
      exact ih hmem2 hnd.2

lemma insertUpdatesScan_self (table : List (List Char × List Char))
    (hnd : (table.map Prod.fst).Nodup) :
    ∀ pending : List (List Char × List Char),
      (∀ p ∈ pending, p ∈ table) →
      insertUpdatesScan table pending = ([], []) := by
  intro pending hsub
  induction pending with
  | nil => rfl
  | cons p rest ih =>
    obtain ⟨id_, hash_⟩ := p
    have hmem : (id_, hash_) ∈ table := hsub _ (List.mem_cons_self _ _)
    have hlk := lookup_of_mem_nodupkeys table id_ hash_ hmem hnd
    have htail : insertUpdatesScan table rest = ([], []) :=
      ih (fun q hq => hsub q (List.mem_cons_of_mem _ hq))
    simp only [insertUpdatesScan, hlk, htail]
    rw [if_neg (by simp)]

/-- C9: ingest round trip. For every TSV file (list of rows), schema parser
dictionary, hash function and marker code, building the database and then
running the update diff on the same file classifies every row as
unchanged: the diff emits no new ids and no changed ids, because the
update parser is the same row function as the build parser and so
recomputes exactly the stored hash at each specimenid. The hypothesis asks
the file to carry distinct specimen ids, which is what the specimen
table's primary key enforces at build time. -/
theorem ingest_round_trip_no_changes (sha : List Char → List Char)
    (dataParsers : List (List Char × (List Char → List Char)))
    (marker_code : List Char) (fileRows : List TsvRow)
    (hnodup : ((buildSpecimenTable sha dataParsers marker_code
        fileRows).map Prod.fst).Nodup) :
    insertUpdatesIds sha dataParsers marker_code
      (buildSpecimenTable sha dataParsers marker_code fileRows) fileRows =
        ([], []) ∧
    tsvUpdateParserParseRow = tsvParserParseRow := by
  refine ⟨?_, rfl⟩
  have hagree : tsvUpdateParserParseRow = tsvParserParseRow := rfl
  unfold insertUpdatesIds
  rw [hagree]
  exact insertUpdatesScan_self _ hnodup _ (fun p hp => hp)

/-- Concrete single-row file for the C9 witness. -/
def roundTripRow : TsvRow :=
  { cells := [(kSpecimenid, some ['1','7']), (kNuc, some ['A','C','G','T']),
              (kMarkerCode, some ['C','O','I'])] }

/-- C9 witness: on the one-row file with the identity hash function the
theorem applies with the distinct-ids hypothesis discharged by
computation, and the update diff is empty. -/
theorem ingest_round_trip_no_changes_witness :
    insertUpdatesIds (fun s => s) [] ['C','O','I']
      (buildSpecimenTable (fun s => s) [] ['C','O','I'] [roundTripRow])
      [roundTripRow] = ([], []) :=
  (ingest_round_trip_no_changes (fun s => s) [] ['C','O','I'] [roundTripRow]
    (by decide)).1

end EyeBold
